import Mathlib

/-
Verification development for the RWAP asset valuation dashboard (src/app.py).

The dashboard is a three-stage pipeline: a loader (pd.read_csv behind a
session cache), an aggregator (three KPIs, a location-filtered map subset,
and a per-state value ranking), and a presenter.  The definitions below are
a shallow embedding of that pipeline: a table is a list of rows, a possibly
missing (NaN) cell is an Option, numeric cells are rationals, and the pandas
operations used by the source (Series.sum with skipna, value_counts().get,
dropna on a column subset, groupby followed by sum, sort_values, head) are
translated on this representation.
-/

/-- One row of the CSV read by pd.read_csv (one Asset Record).  Field names
follow the columns the source accesses: Real Property Asset Name, State,
Latitude, Longitude, Estimated Asset Value (USD), Missing Valuation.
An Option field is a cell that may be empty (NaN) in the file. -/
structure AssetRecord where
  realPropertyAssetName : String
  state : String
  latitude : Option ℚ
  longitude : Option ℚ
  estimatedAssetValue : Option ℚ
  missingValuation : Option Bool
deriving DecidableEq

/-- The in-memory table: rows in file order. -/
abbrev Table := List AssetRecord

/-- pandas Series.sum with the default skipna=True: null cells contribute
nothing to the sum; no row makes the sum undefined. -/
def seriesSum (xs : List (Option ℚ)) : ℚ :=
  (xs.filterMap id).sum

/-- pandas Series.value_counts().get(False, 0): value_counts drops null
cells and counts occurrences of each remaining value; .get(False, 0) reads
off the count of False, defaulting to 0. -/
def valueCountsGetFalse (xs : List (Option Bool)) : ℕ :=
  (xs.filterMap id).count false

/-- src/app.py line 43: total_assets = len(df). -/
def total_assets (df : Table) : ℕ :=
  df.length

/-- src/app.py line 44: total_value = df[value column].sum(). -/
def total_value (df : Table) : ℚ :=
  seriesSum (df.map (·.estimatedAssetValue))

/-- src/app.py line 46: assets_with_valuation =
df[Missing Valuation].value_counts().get(False, 0). -/
def assets_with_valuation (df : Table) : ℕ :=
  valueCountsGetFalse (df.map (·.missingValuation))

/-- src/app.py line 60: df_map = df.dropna(subset=[Latitude, Longitude,
value column]) keeps exactly the rows whose three cells are all present,
in their original order. -/
def df_map (df : Table) : Table :=
  df.filter (fun r =>
    r.latitude.isSome && r.longitude.isSome && r.estimatedAssetValue.isSome)

/-- The summed value of one state group: df.groupby(State)[value].sum()
restricted to one key.  Within a group the sum again skips null cells
(pandas groupby sum, min_count=0). -/
def stateGroupSum (df : Table) (s : String) : ℚ :=
  seriesSum ((df.filter (fun r => decide (r.state = s))).map (·.estimatedAssetValue))

/-- The group keys of df.groupby(State): the distinct State values.  pandas
groupby with the default sort=True emits groups in ascending key order. -/
def stateKeys (df : Table) : List String :=
  List.insertionSort (fun a b => a ≤ b) (df.map (·.state)).dedup

/-- src/app.py line 84 before sorting: one (state, summed value) pair per
group, in group-emission order. -/
def groupedValueByState (df : Table) : List (String × ℚ) :=
  (stateKeys df).map (fun s => (s, stateGroupSum df s))

/-- The descending-by-summed-value order of sort_values(ascending=False).
pandas leaves the relative order of equal keys unspecified under its default
sort kind; the insertion sort used below fixes one such order, and no
theorem about the ranking depends on that choice. -/
def valDesc (a b : String × ℚ) : Prop :=
  b.2 ≤ a.2

instance : DecidableRel valDesc :=
  fun a b => inferInstanceAs (Decidable (b.2 ≤ a.2))

instance : IsTotal (String × ℚ) valDesc :=
  ⟨fun a b => le_total b.2 a.2⟩

instance : IsTrans (String × ℚ) valDesc :=
  ⟨fun _ _ _ hab hbc => le_trans hbc hab⟩

/-- src/app.py line 84: value_by_state = groupby, sum, sort descending. -/
def value_by_state (df : Table) : List (String × ℚ) :=
  List.insertionSort valDesc (groupedValueByState df)

/-- src/app.py line 88: value_by_state.head(10), the rows the bar chart
actually displays. -/
def value_by_state_top10 (df : Table) : List (String × ℚ) :=
  (value_by_state df).take 10

/-- A filesystem, as the loader observes it: a path either resolves to a
parsed table or does not exist, in which case pd.read_csv raises
FileNotFoundError. -/
abbrev FileSystem := String → Option Table

/-- The text of the st.error call on src/app.py line 27, naming the missing
path (punctuation around the path is abbreviated). -/
def errorMessage (filepath : String) : String :=
  "Error: The file " ++ filepath ++ " was not found. Please make sure it is in the same directory as app.py."

/-- src/app.py lines 18-28, the body of load_data without the cache
wrapper: try pd.read_csv and return the data; on FileNotFoundError show an
error naming the path and return None.  The second component collects the
messages displayed; the function is total, so nothing escapes past this
boundary. -/
def load_data (fs : FileSystem) (filepath : String) : Option Table × List String :=
  match fs filepath with
  | some data => (some data, [])
  | none => (none, [errorMessage filepath])

/-- The outputs one render pass can produce: the three KPI values, the map
subset backing the circle markers, the chart rows, and the raw table when
the checkbox is on. -/
structure Outputs where
  totalAssets : ℕ
  totalValue : ℚ
  assetsWithValuation : ℕ
  mapRows : Table
  chart : List (String × ℚ)
  rawTable : Option Table
deriving DecidableEq

/-- src/app.py lines 34-102 given a loaded table: the aggregator and
presenter computations of one render pass.  showRaw is the state of the
Show Raw Data Table checkbox.  The second component is the table still
bound to df when the pass ends: the source never rebinds or mutates df, so
the pass returns it unchanged alongside the outputs. -/
def renderOutputs (df : Table) (showRaw : Bool) : Outputs × Table :=
  (⟨total_assets df, total_value df, assets_with_valuation df,
    df_map df, value_by_state_top10 df,
    if showRaw then some df else none⟩, df)

/-- What one render pass leaves on the page: error messages and, when the
load succeeded, the outputs. -/
structure RenderResult where
  errors : List String
  output : Option Outputs
deriving DecidableEq

/-- src/app.py line 31: the fixed relative path the dashboard loads. -/
def dataPath : String :=
  "cleaned_asset_valuation.csv"

/-- The whole script, src/app.py lines 31-102: load the fixed path; if the
table arrived, produce the outputs, otherwise only the loader error is on
the page (the entire body is under the df is not None guard of line 34). -/
def renderPass (fs : FileSystem) (showRaw : Bool) : RenderResult :=
  match load_data fs dataPath with
  | (some df, msgs) => ⟨msgs, some (renderOutputs df showRaw).1⟩
  | (none, msgs) => ⟨msgs, none⟩

/-- Modelled from the spec: the session cache that the st.cache_data
decorator (Streamlit framework code, not part of src/) wraps around
load_data.  The cache is keyed by the path argument; a hit returns the
stored result without running the body, a miss runs the body (one
filesystem read, counted) and stores the result, None results included. -/
structure Session where
  cache : List (String × Option Table)
  reads : ℕ
deriving DecidableEq

/-- Modelled from the spec: load_data as called through st.cache_data
within one session. -/
def load_data_cached (fs : FileSystem) (s : Session) (filepath : String) :
    Option Table × Session :=
  match s.cache.lookup filepath with
  | some v => (v, s)
  | none =>
      let v := (load_data fs filepath).1
      (v, ⟨(filepath, v) :: s.cache, s.reads + 1⟩)

/-
Helper lemmas shared by several claim theorems.
-/

/-- A skipna sum equals the sum over every cell with empty cells read as 0:
no row is dropped, an empty cell just contributes nothing. -/
theorem seriesSum_eq_sum_getD (xs : List (Option ℚ)) :
    seriesSum xs = (xs.map (fun o => o.getD 0)).sum := by
  induction xs with
  | nil => rfl
  | cons x t ih =>
      cases x <;> simp [seriesSum, List.filterMap_cons] at ih ⊢ <;> exact ih

/-- value_counts().get(False, 0) counts exactly the cells that hold the
value false; null cells are dropped before counting. -/
theorem valueCountsGetFalse_eq_filter_length (xs : List (Option Bool)) :
    valueCountsGetFalse xs
      = (xs.filter (fun o => decide (o = some false))).length := by
  induction xs with
  | nil => rfl
  | cons x t ih =>
      match x with
      | none =>
          simpa [valueCountsGetFalse, List.filterMap_cons, List.filter_cons] using ih
      | some true =>
          simpa [valueCountsGetFalse, List.filterMap_cons, List.filter_cons,
            List.count_cons] using ih
      | some false =>
          simp [valueCountsGetFalse, List.filterMap_cons, List.filter_cons,
            List.count_cons] at ih ⊢
          omega

/-- The valuation-complete KPI as a row count over the table. -/
theorem assets_with_valuation_eq (df : Table) :
    assets_with_valuation df
      = (df.filter (fun r => decide (r.missingValuation = some false))).length := by
  rw [assets_with_valuation, valueCountsGetFalse_eq_filter_length,
    List.filter_map, List.length_map]
  rfl

/-- Every row carries exactly one of the three flag shapes: false, true, or
absent, so the three filtered counts partition the table. -/
theorem flag_count_partition (df : Table) :
    (df.filter (fun r => decide (r.missingValuation = some false))).length
        + (df.filter (fun r => decide (r.missingValuation = some true))).length
        + (df.filter (fun r => decide (r.missingValuation = none))).length
      = df.length := by
  induction df with
  | nil => rfl
  | cons r t ih =>
      match h : r.missingValuation with
      | none => simp [List.filter_cons, h]; omega
      | some true => simp [List.filter_cons, h]; omega
      | some false => simp [List.filter_cons, h]; omega

/-- C5: for every loaded table with N rows, the Total Assets KPI shown by
the render pass equals N exactly. -/
theorem totalAssets_KPI_eq_row_count (df : Table) (showRaw : Bool) :
    ((renderOutputs df showRaw).1).totalAssets = df.length :=
  rfl

/-- C1: the Total Estimated Value KPI equals the sum of the value column
over all rows, an absent value cell contributing nothing (read as 0), and
rewriting every Missing Valuation flag arbitrarily leaves the KPI
unchanged: no row is skipped on account of that flag. -/
theorem totalValue_KPI_sums_all_rows (df : Table) (showRaw : Bool) :
    ((renderOutputs df showRaw).1).totalValue
        = (df.map (fun r => (r.estimatedAssetValue).getD 0)).sum ∧
      ∀ f : AssetRecord → Option Bool,
        total_value (df.map (fun r => { r with missingValuation := f r }))
          = total_value df := by
  constructor
  · show total_value df = _
    rw [total_value, seriesSum_eq_sum_getD, List.map_map]
    rfl
  · intro f
    show seriesSum _ = seriesSum _
    rw [List.map_map]
    rfl

/-- C6: the Assets with Valuation KPI counts exactly the rows whose
Missing Valuation flag is present and false. -/
theorem assetsWithValuation_KPI_counts_false_flags (df : Table) (showRaw : Bool) :
    ((renderOutputs df showRaw).1).assetsWithValuation
      = (df.filter (fun r => decide (r.missingValuation = some false))).length :=
  assets_with_valuation_eq df

/-- C3: the map subset holds no row with an absent latitude, longitude or
value, holds every row of the table in which all three are present, and is
a sublist of the table (the retained rows keep their original relative
order). -/
theorem df_map_membership_and_order (df : Table) :
    (∀ r ∈ df_map df,
        r.latitude.isSome = true ∧ r.longitude.isSome = true ∧
          r.estimatedAssetValue.isSome = true) ∧
      (∀ r ∈ df,
        r.latitude.isSome = true → r.longitude.isSome = true →
          r.estimatedAssetValue.isSome = true → r ∈ df_map df) ∧
      (df_map df).Sublist df := by
  refine ⟨?_, ?_, List.filter_sublist df⟩
  · intro r hr
    have hb := (List.mem_filter.mp hr).2
    simp only [Bool.and_eq_true] at hb
    exact ⟨hb.1.1, hb.1.2, hb.2⟩
  · intro r hr h1 h2 h3
    exact List.mem_filter.mpr ⟨hr, by simp [h1, h2, h3]⟩

/-- C3 witness: a concrete row with all three cells present is in the map
subset of its singleton table. -/
theorem df_map_membership_and_order_witness :
    (⟨"A", "CA", some 1, some 1, some 100, some false⟩ : AssetRecord) ∈
      df_map [⟨"A", "CA", some 1, some 1, some 100, some false⟩] :=
  (df_map_membership_and_order
      [⟨"A", "CA", some 1, some 1, some 100, some false⟩]).2.1
    _ (List.mem_singleton.mpr rfl) rfl rfl rfl

/-- C9: a render pass leaves the loaded table unchanged: the table still
bound after the pass is the input table, the raw-data view displays that
same table, and the map view is a read-only sublist of it (nothing is
written back). -/
theorem render_leaves_table_unchanged (df : Table) (showRaw : Bool) :
    (renderOutputs df showRaw).2 = df ∧
      (renderOutputs df true).1.rawTable = some df ∧
      ((renderOutputs df showRaw).1.mapRows).Sublist df :=
  ⟨rfl, rfl, List.filter_sublist df⟩

/-- C2: for every input path that does not exist, load_data returns None
together with the single error message spelling out that path, and when
the missing path is the one the dashboard loads, the render pass puts
exactly that message on the page and produces no output at all: no KPI,
map, chart or table. -/
theorem missing_file_error_and_no_output (fs : FileSystem) (p : String)
    (showRaw : Bool) (h : fs p = none) :
    load_data fs p = (none, [errorMessage p]) ∧
      (p = dataPath → renderPass fs showRaw = ⟨[errorMessage dataPath], none⟩) ∧
      errorMessage dataPath
        = "Error: The file cleaned_asset_valuation.csv was not found. Please make sure it is in the same directory as app.py." := by
  have hl : load_data fs p = (none, [errorMessage p]) := by
    rw [load_data, h]
  refine ⟨hl, ?_, rfl⟩
  intro hp
  subst hp
  rw [renderPass, hl]

/-- C2 witness: on the empty filesystem the render pass shows the error and
nothing else. -/
theorem missing_file_error_and_no_output_witness :
    renderPass (fun _ => none) true = ⟨[errorMessage dataPath], none⟩ :=
  (missing_file_error_and_no_output (fun _ => none) dataPath true rfl).2.1 rfl

/-- C10: a row whose Missing Valuation flag is absent is counted neither as
valuation-complete nor as missing: the KPI counts exactly the rows whose
flag is false, the KPI plus the count of flag-true rows never exceeds the
row count, and the inequality is strict whenever some flag is absent. -/
theorem absent_flag_rows_counted_neither (df : Table) :
    assets_with_valuation df
        = (df.filter (fun r => decide (r.missingValuation = some false))).length ∧
      assets_with_valuation df
          + (df.filter (fun r => decide (r.missingValuation = some true))).length
        ≤ df.length ∧
      ((∃ r ∈ df, r.missingValuation = none) →
        assets_with_valuation df
            + (df.filter (fun r => decide (r.missingValuation = some true))).length
          < df.length) := by
  have hF := assets_with_valuation_eq df
  have hP := flag_count_partition df
  refine ⟨hF, by omega, ?_⟩
  rintro ⟨r, hr, hn⟩
  have hmem : r ∈ df.filter (fun r => decide (r.missingValuation = none)) :=
    List.mem_filter.mpr ⟨hr, by simp [hn]⟩
  have hpos : 0 < (df.filter (fun r => decide (r.missingValuation = none))).length :=
    List.length_pos.mpr (List.ne_nil_of_mem hmem)
  omega

/-- C10 witness: on a three-row table with one absent flag, the KPI plus
the flag-true count falls strictly below the row count. -/
theorem absent_flag_rows_counted_neither_witness :
    assets_with_valuation
          [⟨"A", "CA", some 1, some 1, some 100, some false⟩,
           ⟨"B", "TX", some 2, some 2, some 200, some true⟩,
           ⟨"C", "NY", some 3, some 3, some 300, none⟩]
        + (([⟨"A", "CA", some 1, some 1, some 100, some false⟩,
             ⟨"B", "TX", some 2, some 2, some 200, some true⟩,
             ⟨"C", "NY", some 3, some 3, some 300, none⟩] : Table).filter
            (fun r => decide (r.missingValuation = some true))).length
      < ([⟨"A", "CA", some 1, some 1, some 100, some false⟩,
          ⟨"B", "TX", some 2, some 2, some 200, some true⟩,
          ⟨"C", "NY", some 3, some 3, some 300, none⟩] : Table).length :=
  (absent_flag_rows_counted_neither
      [⟨"A", "CA", some 1, some 1, some 100, some false⟩,
       ⟨"B", "TX", some 2, some 2, some 200, some true⟩,
       ⟨"C", "NY", some 3, some 3, some 300, none⟩]).2.2
    ⟨⟨"C", "NY", some 3, some 3, some 300, none⟩, by simp, rfl⟩

/-- C8: within a session the cache never re-reads a path: calling the
cached loader again with the same path returns the same value and leaves
the session, and in particular its read counter, untouched; and no loader
call invalidates an existing cache entry, so an entry can change only if
something outside the session (a file change picked up by the framework)
does it. -/
theorem st_cache_data_session_spec (fs : FileSystem) (s : Session) (p q : String) :
    load_data_cached fs (load_data_cached fs s p).2 p = load_data_cached fs s p ∧
      ((load_data_cached fs (load_data_cached fs s p).2 p).2).reads
        = ((load_data_cached fs s p).2).reads ∧
      ∀ v, s.cache.lookup p = some v →
        ((load_data_cached fs s q).2).cache.lookup p = some v := by
  have h1 : load_data_cached fs (load_data_cached fs s p).2 p
      = load_data_cached fs s p := by
    cases h : s.cache.lookup p with
    | some v => simp [load_data_cached, h]
    | none => simp [load_data_cached, h, List.lookup]
  refine ⟨h1, by rw [h1], ?_⟩
  intro v hv
  cases hq : s.cache.lookup q with
  | some w => simp [load_data_cached, hq, hv]
  | none =>
      have hpq : p ≠ q := by
        intro he
        rw [he, hq] at hv
        cases hv
      simp only [load_data_cached, hq, List.lookup, hv]
      rw [beq_eq_false_iff_ne.mpr hpq]

/-- C8 witness: a concrete session holding an entry for path a keeps that
entry intact across a cached load of the different path b. -/
theorem st_cache_data_session_spec_witness :
    ((load_data_cached (fun _ => some []) ⟨[("a", some [])], 0⟩ "b").2).cache.lookup "a"
      = some (some []) :=
  (st_cache_data_session_spec (fun _ => some []) ⟨[("a", some [])], 0⟩ "a" "b").2.2
    (some []) rfl

/-- C4: the top-10 state ranking fed to the bar chart holds at most 10
groups, consecutive groups carry non-increasing summed values (descending
order), and each group is labelled with a state code and the skipna sum of
the value column over exactly the rows of that state. -/
theorem value_by_state_top10_spec (df : Table) :
    (value_by_state_top10 df).length ≤ 10 ∧
      List.Pairwise (fun a b : String × ℚ => b.2 ≤ a.2) (value_by_state_top10 df) ∧
      ∀ p ∈ value_by_state_top10 df,
        p.2 = seriesSum ((df.filter (fun r => decide (r.state = p.1))).map
          (·.estimatedAssetValue)) := by
  refine ⟨List.length_take_le 10 (value_by_state df), ?_, ?_⟩
  · have hs : List.Sorted valDesc (value_by_state df) :=
      List.sorted_insertionSort valDesc (groupedValueByState df)
    exact List.Pairwise.sublist (List.take_sublist 10 (value_by_state df)) hs
  · intro p hp
    have hp1 : p ∈ value_by_state df :=
      (List.take_sublist 10 (value_by_state df)).subset hp
    have hp2 : p ∈ groupedValueByState df :=
      (List.mem_insertionSort valDesc).mp hp1
    obtain ⟨s, _, he⟩ := List.mem_map.mp hp2
    rw [← he]
    rfl

/-- C4 witness: on a concrete one-row table the single chart row carries
the correct per-state sum. -/
theorem value_by_state_top10_spec_witness :
    ("CA", (100 : ℚ)).2
      = seriesSum ((([⟨"A", "CA", some 1, some 1, some 100, some false⟩] :
          Table).filter (fun r => decide (r.state = ("CA", (100 : ℚ)).1))).map
        (·.estimatedAssetValue)) :=
  (value_by_state_top10_spec
      [⟨"A", "CA", some 1, some 1, some 100, some false⟩]).2.2
    ("CA", 100)
    (by simp [value_by_state_top10, value_by_state, groupedValueByState,
      stateKeys, stateGroupSum, seriesSum, List.dedup])
